import Mathlib

/-!
Shallow embedding of the CAPS obstetric survey validation logic
(`caps/models.py`): the `CapsForm` case record, its child record types,
the model-level `clean` validation methods, and the choice-table label
lookups.  Dates and datetimes are abstracted to day / instant ordinals
(`Nat`); nullable columns become `Option`; Django model instances become
plain structures; the Python `ValidationError` raises become an explicit
result value, and the `TypeError` that `len(None)` raises is a separate
crash outcome.  `CapsForm.clean` reads `previous_pregnancy_history.count()`,
which is passed in as an explicit `pregCount : Nat`.
-/

/-- Every distinct `ValidationError` message that `caps/models.py` can raise,
one constructor per raise site message (the two "No previous pregnancies"
raise sites use the same string literal and share a constructor). -/
inductive VError where
  | occupationMissing
  | noPreviousPregnancies
  | pregnancyProblemDetails
  | answerPregnancyProblem
  | cardiacArrestDateMissing
  | drugUseDateMissing
deriving DecidableEq

/-- The literal message strings of the raise sites in `caps/models.py`.
The "No previous pregnancies" message is a Python triple-quoted string and
keeps its surrounding newlines and indentation. -/
def VError.msg : VError → String
  | .occupationMissing =>
      "Section 1: Please enter occupation details for the woman"
  | .noPreviousPregnancies =>
      "\n                Section 2: No previous pregnancies have been entered. Please correct the number of previous pregnancies.\n                "
  | .pregnancyProblemDetails =>
      "Section 2: Please enter more information about previous pregnancy problems."
  | .answerPregnancyProblem =>
      "Section 2: Please indicate whether there were any previous pregnancy problems"
  | .cardiacArrestDateMissing =>
      "Section 3: Please enter the date of the most recent cardiac arrest"
  | .drugUseDateMissing =>
      "Section 3: Please specify a date for this drug use, or tick the box to say the timing is unknown"

/-- The form section each validation error belongs to, as named in its
message text. -/
def VError.sec : VError → Nat
  | .occupationMissing => 1
  | .noPreviousPregnancies => 2
  | .pregnancyProblemDetails => 2
  | .answerPregnancyProblem => 2
  | .cardiacArrestDateMissing => 3
  | .drugUseDateMissing => 3

/-- Outcome of running `CapsForm.clean`: normal return, a raised
`ValidationError`, or an uncaught `TypeError` (from `len(None)`). -/
inductive CleanResult where
  | ok
  | vErr (e : VError)
  | typeError
deriving DecidableEq

/-- Whether a clean outcome is a raised `ValidationError` tagged Section 2. -/
def CleanResult.isSec2Err : CleanResult → Bool
  | CleanResult.vErr e => e.sec == 2
  | _ => false

/-- The `CapsForm` model: one case record.  Scalar columns only; the
`previous_pregnancy_history` / `drug_history` reverse relations live outside
the record.  `NullBooleanField` becomes `Option Bool` (`none` = unanswered);
nullable text columns become `Option String`; `DateField` / `DateTimeField`
become day / instant ordinals; `weight` (decimal, one place) is in tenths of
a kilogram; `created_by` is the user id of the `User` foreign key. -/
structure CapsForm where
  case_id : String
  case_reported : Option String
  created_by : Nat
  year_of_birth : Nat
  ethnic_group : Int
  marital_status : String
  employed : Bool
  occupation : Option String
  height : Nat
  weight : Nat
  smoking : String
  gravidity_24plus : Nat
  gravidity_24minus : Nat
  previous_pregnancy_problem : Option Bool
  heart_disease : Bool
  cardiac_arrest : Bool
  cardiac_arrest_date : Option Nat
  cardiac_arrest_cause : Option String
  drug_use : Bool
  previous_medical_problem : Bool
deriving DecidableEq

/-- Python truthiness of a cleaned `NullBooleanField` value, as used by
`elif self.previous_pregnancy_problem:` — `None` and `False` are falsy,
`True` is truthy. -/
def pyTruthy : Option Bool → Bool
  | some true => true
  | some false => false
  | none => false

/-- Python comparison `self.previous_pregnancy_problem == ""` from
models.py line 292.  The cleaned field value is `None`, `True` or `False`,
and in Python each of `None == ""`, `True == ""` and `False == ""`
evaluates to `False`, so the comparison is `False` in every case. -/
def pyEqEmptyString : Option Bool → Bool
  | none => false
  | some true => false
  | some false => false

/-- Section 3 block of `CapsForm.clean` (models.py lines 299-304): require
a date when `cardiac_arrest` is set, and auto-correct `cardiac_arrest` to
`True` when a date exists but the flag was `False`. -/
def CapsForm.cleanSection3 (c : CapsForm) : CapsForm × CleanResult :=
  if c.cardiac_arrest && c.cardiac_arrest_date.isNone then
    (c, CleanResult.vErr VError.cardiacArrestDateMissing)
  else if !c.cardiac_arrest && c.cardiac_arrest_date.isSome then
    ({ c with cardiac_arrest := true }, CleanResult.ok)
  else
    (c, CleanResult.ok)

/-- The reminder check of `CapsForm.clean` (models.py lines 291-293): if a
gravidity count is positive and `previous_pregnancy_problem == ""`, raise;
then fall through to the Section 3 block. -/
def CapsForm.cleanAnswered (c : CapsForm) : CapsForm × CleanResult :=
  if (c.gravidity_24minus > 0 || c.gravidity_24plus > 0)
      && pyEqEmptyString c.previous_pregnancy_problem then
    (c, CleanResult.vErr VError.answerPregnancyProblem)
  else
    c.cleanSection3

/-- Section 2 block of `CapsForm.clean` (models.py lines 276-293).  With a
positive `previous_pregnancy_history.count()` the field
`previous_pregnancy_problem` is assigned `True` before the gravidity check;
otherwise the `elif` branch runs on a truthy `previous_pregnancy_problem`. -/
def CapsForm.cleanSection2 (c : CapsForm) (pregCount : Nat) : CapsForm × CleanResult :=
  if pregCount > 0 then
    let c2 := { c with previous_pregnancy_problem := some true }
    if c2.gravidity_24minus == 0 && c2.gravidity_24plus == 0 then
      (c2, CleanResult.vErr VError.noPreviousPregnancies)
    else
      c2.cleanAnswered
  else if pyTruthy c.previous_pregnancy_problem then
    if pregCount == 0 then
      (c, CleanResult.vErr VError.pregnancyProblemDetails)
    else if c.gravidity_24minus == 0 && c.gravidity_24plus == 0 then
      (c, CleanResult.vErr VError.noPreviousPregnancies)
    else
      c.cleanAnswered
  else
    c.cleanAnswered

/-- The model-level validation `CapsForm.clean` (models.py lines 265-312).
Python evaluates `self.employed and len(self.occupation) < 1` with
short-circuiting: `len` only runs when `employed` is true, and
`len(None)` raises `TypeError`.  Returns the (possibly mutated) record
together with the outcome. -/
def CapsForm.clean (c : CapsForm) (pregCount : Nat) : CapsForm × CleanResult :=
  if c.employed then
    match c.occupation with
    | none => (c, CleanResult.typeError)
    | some s =>
      if s.length < 1 then
        (c, CleanResult.vErr VError.occupationMissing)
      else
        c.cleanSection2 pregCount
  else
    c.cleanSection2 pregCount

/-- The `DrugUse` linking model: `drug` is the id of the `Drug` foreign key
(nullable at the Python level), `last_use` an optional instant. -/
structure DrugUse where
  drug : Option Nat
  last_use : Option Nat
  last_use_unknown : Bool
deriving DecidableEq

/-- Child validation `DrugUse.clean` (models.py lines 69-73): raise when no
date is given and the unknown box is unticked; otherwise, when a drug is
referenced, set `drug_use = True` on the owning case (`self.person`).
Returns the (possibly mutated) owning case and the optional raised error. -/
def DrugUse.clean (d : DrugUse) (person : CapsForm) : CapsForm × Option VError :=
  if d.last_use.isNone && !d.last_use_unknown then
    (person, some VError.drugUseDateMissing)
  else if d.drug.isSome then
    ({ person with drug_use := true }, none)
  else
    (person, none)

/-- The `PregnancyProblem` child model (coded type plus optional details). -/
structure PregnancyProblem where
  type : Option String
  details : Option String
deriving DecidableEq

/-- Child validation `PregnancyProblem.clean` (models.py lines 360-364):
auto-correct the owning form when a problem type is present. -/
def PregnancyProblem.clean (p : PregnancyProblem) (form : CapsForm) : CapsForm :=
  if p.type.isSome then
    { form with previous_pregnancy_problem := some true }
  else
    form

/-- The `HeartDisease` child model. -/
structure HeartDisease where
  type : Option String
  details : Option String
deriving DecidableEq

/-- Child validation `HeartDisease.clean` (models.py lines 412-420). -/
def HeartDisease.clean (h : HeartDisease) (form : CapsForm) : CapsForm :=
  if h.type.isSome then
    { form with heart_disease := true }
  else
    form

/-- The `MedicalProblem` child model. -/
structure MedicalProblem where
  type : Option String
  details : Option String
deriving DecidableEq

/-- Child validation `MedicalProblem.clean` (models.py lines 456-460). -/
def MedicalProblem.clean (m : MedicalProblem) (form : CapsForm) : CapsForm :=
  if m.type.isSome then
    { form with previous_medical_problem := true }
  else
    form

/-- One top-level entry of the grouped `ETHNIC_ORIGIN_CHOICES` tuple: either
a named group carrying its (code, label) sub-choices, or a flat
(code, label) pair. -/
inductive EthnicChoiceEntry where
  | group (name : String) (subs : List (Int × String))
  | flat (code : Int) (label : String)
deriving DecidableEq

/-- `CapsForm.ETHNIC_ORIGIN_CHOICES` (models.py lines 93-126), UK Census
based coding, grouped by broad category with a single flat `Unknown` code. -/
def ETHNIC_ORIGIN_CHOICES : List EthnicChoiceEntry :=
  [ EthnicChoiceEntry.group "White"
      [(1, "British"), (2, "Irish"), (3, "Any Other White Background")],
    EthnicChoiceEntry.group "Mixed"
      [(4, "White & Black Caribbean"), (5, "White & Black African"),
       (6, "White & Asian"), (7, "Any Other Mixed Background")],
    EthnicChoiceEntry.group "Asian or Asian British"
      [(8, "Indian"), (9, "Pakistani"), (10, "Bangladeshi"),
       (11, "Any Other Asian Background")],
    EthnicChoiceEntry.group "Black or Black British"
      [(12, "Caribbean"), (13, "African"), (14, "Any Other Black Background")],
    EthnicChoiceEntry.group "Chinese or Other Ethic Group"
      [(15, "Chinese"), (16, "Any Other Ethnic Group")],
    EthnicChoiceEntry.flat 0 "Unknown" ]

/-- `CapsForm.MARTIAL_STATUS_CHOICES` (models.py lines 128-132). -/
def MARTIAL_STATUS_CHOICES : List (String × String) :=
  [("single", "Single"), ("married", "Married"), ("cohabiting", "Cohabiting")]

/-- `CapsForm.SMOKING_CHOICES` (models.py lines 134-139). -/
def SMOKING_CHOICES : List (String × String) :=
  [("never", "Never"), ("prior", "Gave up prior to pregnancy"),
   ("during", "Gave up during pregnancy"), ("current", "Current")]

/-- The top-level loop of `ethnic_group_string` (models.py lines 247-251):
`for k, v in ETHNIC_ORIGIN_CHOICES: if k == self.ethnic_group: return v`.
For a group entry `k` is the group-name string, and the Python comparison
of a `str` with the `int` code is `False`, so group entries never match and
only the flat `(0, Unknown)` pair can be returned; the fall-through returns
the empty string. -/
def ethnicTopLookup : List EthnicChoiceEntry → Int → String
  | [], _ => ""
  | EthnicChoiceEntry.group _ _ :: rest, code => ethnicTopLookup rest code
  | EthnicChoiceEntry.flat k v :: rest, code =>
      if k == code then v else ethnicTopLookup rest code

/-- `CapsForm.ethnic_group_string` (models.py lines 247-251). -/
def CapsForm.ethnic_group_string (c : CapsForm) : String :=
  ethnicTopLookup ETHNIC_ORIGIN_CHOICES c.ethnic_group

/-- Shared shape of `marital_status_string` / `smoking_string`: first label
whose code matches, otherwise the empty string. -/
def strChoiceLookup : List (String × String) → String → String
  | [], _ => ""
  | (k, v) :: rest, code => if k == code then v else strChoiceLookup rest code

/-- `CapsForm.marital_status_string` (models.py lines 253-257). -/
def CapsForm.marital_status_string (c : CapsForm) : String :=
  strChoiceLookup MARTIAL_STATUS_CHOICES c.marital_status

/-- `CapsForm.smoking_string` (models.py lines 259-263). -/
def CapsForm.smoking_string (c : CapsForm) : String :=
  strChoiceLookup SMOKING_CHOICES c.smoking

/-- All (code, label) pairs of the grouped ethnic choice table, groups
expanded: membership in this list is what "the code is a member of the
choice table" means for the grouped table. -/
def ethnicFlatten : List EthnicChoiceEntry → List (Int × String)
  | [] => []
  | EthnicChoiceEntry.group _ subs :: rest => subs ++ ethnicFlatten rest
  | EthnicChoiceEntry.flat k v :: rest => (k, v) :: ethnicFlatten rest

/-- Label of a code in a flat (code, label) table, `none` when absent. -/
def intChoiceLookup : List (Int × String) → Int → Option String
  | [], _ => none
  | (k, v) :: rest, code =>
      if k == code then some v else intChoiceLookup rest code

/-- A fully valid concrete case used as the base point of the concrete
instances below: unemployed, no obstetric history, no cardiac history. -/
def baseCase : CapsForm :=
  { case_id := "C0001"
    case_reported := none
    created_by := 1
    year_of_birth := 1980
    ethnic_group := 1
    marital_status := "single"
    employed := false
    occupation := none
    height := 165
    weight := 700
    smoking := "never"
    gravidity_24plus := 0
    gravidity_24minus := 0
    previous_pregnancy_problem := none
    heart_disease := false
    cardiac_arrest := false
    cardiac_arrest_date := none
    cardiac_arrest_cause := none
    drug_use := false
    previous_medical_problem := false }

/-- The Section 1 occupation check of `CapsForm.clean` neither raises nor
crashes: either the woman is not employed, or the occupation is a nonempty
string. -/
def sec1Passes (c : CapsForm) : Bool :=
  if c.employed then
    match c.occupation with
    | some s => !(s.length == 0)
    | none => false
  else
    true

/-- The Section 2 checks of `CapsForm.clean` raise no error: with children
present at least one gravidity count is positive, without children the
`previous_pregnancy_problem` answer is not truthy. -/
def sec2Passes (c : CapsForm) (pregCount : Nat) : Bool :=
  if pregCount > 0 then
    !(c.gravidity_24minus == 0 && c.gravidity_24plus == 0)
  else
    !(pyTruthy c.previous_pregnancy_problem)

/-! ### Helper lemmas about the validation blocks -/

/-- The comparison of the tri-state field with the empty string is false for
every value the field can take, so the line-292 reminder can never raise. -/
theorem pyEqEmptyString_eq_false (v : Option Bool) : pyEqEmptyString v = false := by
  cases v with
  | none => rfl
  | some b => cases b <;> rfl

/-- Because the reminder condition is always false, `cleanAnswered` is just
the Section 3 block. -/
theorem cleanAnswered_eq_cleanSection3 (c : CapsForm) :
    c.cleanAnswered = c.cleanSection3 := by
  unfold CapsForm.cleanAnswered
  rw [pyEqEmptyString_eq_false]
  simp

/-- When the Section 1 occupation check passes, `clean` runs the Section 2
block on the unchanged record. -/
theorem clean_eq_cleanSection2_of_sec1Passes (c : CapsForm) (n : Nat)
    (h : sec1Passes c = true) : CapsForm.clean c n = c.cleanSection2 n := by
  unfold CapsForm.clean
  unfold sec1Passes at h
  cases hemp : c.employed with
  | false => simp [hemp]
  | true =>
    rw [hemp] at h
    simp only [if_true] at h
    cases hocc : c.occupation with
    | none => rw [hocc] at h; simp at h
    | some s =>
      rw [hocc] at h
      simp at h
      simp [hemp, Nat.lt_one_iff, h]

/-- The Section 3 block returns either a normal result or the
cardiac-arrest-date error. -/
theorem cleanSection3_snd (c : CapsForm) :
    (c.cleanSection3).2 = CleanResult.ok ∨
    (c.cleanSection3).2 = CleanResult.vErr VError.cardiacArrestDateMissing := by
  unfold CapsForm.cleanSection3
  split
  · exact Or.inr rfl
  · split
    · exact Or.inl rfl
    · exact Or.inl rfl

/-- The Section 3 block never touches `previous_pregnancy_problem`. -/
theorem cleanSection3_ppp (c : CapsForm) :
    (c.cleanSection3).1.previous_pregnancy_problem =
      c.previous_pregnancy_problem := by
  unfold CapsForm.cleanSection3
  split
  · rfl
  · split <;> rfl

/-- With children present, the Section 2 block first assigns
`previous_pregnancy_problem := True`, then raises when both gravidity
counts are zero, else falls through to Section 3 on the updated record. -/
theorem cleanSection2_pos (c : CapsForm) (n : Nat) (hn : 0 < n) :
    c.cleanSection2 n =
      (if c.gravidity_24minus == 0 && c.gravidity_24plus == 0 then
        ({ c with previous_pregnancy_problem := some true },
          CleanResult.vErr VError.noPreviousPregnancies)
      else
        ({ c with previous_pregnancy_problem := some true }).cleanSection3) := by
  unfold CapsForm.cleanSection2
  simp [hn, cleanAnswered_eq_cleanSection3]

/-- Without children and with a non-truthy answer, the Section 2 block is a
no-op and validation proceeds to Section 3. -/
theorem cleanSection2_zero_not_truthy (c : CapsForm)
    (h : pyTruthy c.previous_pregnancy_problem = false) :
    c.cleanSection2 0 = c.cleanSection3 := by
  unfold CapsForm.cleanSection2
  simp [h, cleanAnswered_eq_cleanSection3]

/-- Without children and with a truthy answer, the Section 2 block raises
the more-information error on the unchanged record. -/
theorem cleanSection2_zero_truthy (c : CapsForm)
    (h : pyTruthy c.previous_pregnancy_problem = true) :
    c.cleanSection2 0 = (c, CleanResult.vErr VError.pregnancyProblemDetails) := by
  unfold CapsForm.cleanSection2
  simp [h]

/-! ### Claim theorems -/

/-- C8: `DrugUse.clean` fails exactly when `last_use` is unset and
`last_use_unknown` is false, and the raised error is the Section 3 message
asking to specify a date or tick the unknown box. -/
theorem c8_druguse_fails_iff_no_date_and_not_unknown
    (d : DrugUse) (p : CapsForm) :
    (DrugUse.clean d p).2 =
      (if d.last_use = none ∧ d.last_use_unknown = false then
        some VError.drugUseDateMissing
      else none) ∧
    VError.drugUseDateMissing.sec = 3 ∧
    VError.drugUseDateMissing.msg =
      "Section 3: Please specify a date for this drug use, or tick the box to say the timing is unknown" := by
  refine ⟨?_, rfl, rfl⟩
  cases hl : d.last_use <;> cases hu : d.last_use_unknown <;>
    cases hd : d.drug <;> simp [DrugUse.clean, hl, hu, hd]

/-- A drug-use event with a drug reference, no date, and the unknown box
ticked: it passes its own check and triggers the auto-correction. -/
def c1cex : DrugUse := { drug := some 1, last_use := none, last_use_unknown := true }

/-- C1 counterexample: running `DrugUse.clean` on an event whose drug
reference is set does not leave the `drug_use` flag of the owning case
unchanged — the flag flips from false to true. -/
theorem c1_drug_use_flag_changed :
    baseCase.drug_use = false ∧ c1cex.drug = some 1 ∧
    (DrugUse.clean c1cex baseCase).1.drug_use = true :=
  ⟨rfl, rfl, rfl⟩

/-- C1 amended: for every drug-use event whose drug reference is set and
whose own date check passes, `DrugUse.clean` sets the owning
`drug_use` flag of the case to true — the code performs the same
auto-correction as the other three child kinds, not the asymmetry the
claim describes. -/
theorem c1_amended_drug_use_propagates (d : DrugUse) (p : CapsForm)
    (hd : d.drug.isSome = true)
    (hok : d.last_use.isSome = true ∨ d.last_use_unknown = true) :
    (DrugUse.clean d p).1.drug_use = true := by
  cases hl : d.last_use <;> cases hu : d.last_use_unknown <;>
    cases hdr : d.drug <;> simp_all [DrugUse.clean]

/-- C1 amended witness at the concrete event `c1cex`. -/
theorem c1_amended_witness :
    c1cex.drug.isSome = true ∧
    (c1cex.last_use.isSome = true ∨ c1cex.last_use_unknown = true) ∧
    (DrugUse.clean c1cex baseCase).1.drug_use = true :=
  ⟨rfl, Or.inr rfl,
    c1_amended_drug_use_propagates c1cex baseCase rfl (Or.inr rfl)⟩

/-- A case with one completed pregnancy recorded and the previous-problems
question left unanswered. -/
def c2case : CapsForm := { baseCase with gravidity_24plus := 1 }

/-- C2: the unanswered-question reminder can never fire — the code compares
the tri-state field with the empty string, which is false for all of None,
True and False — so a case with a positive gravidity count and an
unanswered `previous_pregnancy_problem` passes validation unchanged,
contrary to the claimed Section 2 failure. -/
theorem c2_unanswered_reminder_never_fires :
    c2case.gravidity_24plus = 1 ∧
    c2case.previous_pregnancy_problem = none ∧
    CapsForm.clean c2case 0 = (c2case, CleanResult.ok) ∧
    ∀ v : Option Bool, pyEqEmptyString v = false :=
  ⟨rfl, rfl, rfl, pyEqEmptyString_eq_false⟩

/-- C3: code 1 (British) is a member of the flattened ethnic choice table,
yet `ethnic_group_string` returns the empty string for it — the loop
iterates only the top-level grouped entries, whose string keys never equal
an integer code, so every code except the flat 0 (Unknown) yields the empty
string.  Unknown code 99 also yields the empty string, and the flat marital
and smoking lookups do return their labels. -/
theorem c3_ethnic_label_lookup_misses_grouped_codes :
    intChoiceLookup (ethnicFlatten ETHNIC_ORIGIN_CHOICES) 1 = some "British" ∧
    CapsForm.ethnic_group_string { baseCase with ethnic_group := 1 } = "" ∧
    CapsForm.ethnic_group_string { baseCase with ethnic_group := 99 } = "" ∧
    CapsForm.ethnic_group_string { baseCase with ethnic_group := 0 } = "Unknown" ∧
    CapsForm.marital_status_string { baseCase with marital_status := "married" } = "Married" ∧
    CapsForm.smoking_string { baseCase with smoking := "prior" } = "Gave up prior to pregnancy" :=
  ⟨rfl, rfl, rfl, rfl, rfl, rfl⟩

/-- C9: with employed = true and occupation = None, `CapsForm.clean`
crashes with a TypeError from `len(None)` instead of producing a structured
Section 1 validation error. -/
theorem c9_occupation_none_typeerror (c : CapsForm) (n : Nat)
    (hemp : c.employed = true) (hocc : c.occupation = none) :
    CapsForm.clean c n = (c, CleanResult.typeError) := by
  unfold CapsForm.clean
  rw [hemp, hocc]
  simp

/-- An employed case with the occupation column NULL. -/
def c9case : CapsForm := { baseCase with employed := true }

/-- C9 witness at the concrete case `c9case`. -/
theorem c9_witness :
    c9case.employed = true ∧ c9case.occupation = none ∧
    CapsForm.clean c9case 0 = (c9case, CleanResult.typeError) :=
  ⟨rfl, rfl, c9_occupation_none_typeerror c9case 0 rfl rfl⟩

/-- A string has length zero exactly when it is the empty string. -/
theorem string_length_eq_zero_iff (s : String) : s.length = 0 ↔ s = "" := by
  cases s with
  | mk data =>
    show data.length = 0 ↔ String.mk data = String.mk []
    rw [List.length_eq_zero]
    exact ⟨fun h => by rw [h], fun h => by cases h; rfl⟩

/-- Behaviour of the Section 3 block on the two configurations the claims
talk about: missing date with the flag set, and present date with the flag
unset. -/
theorem cleanSection3_spec (c : CapsForm) :
    (c.cardiac_arrest = true ∧ c.cardiac_arrest_date = none →
      c.cleanSection3 = (c, CleanResult.vErr VError.cardiacArrestDateMissing)) ∧
    (c.cardiac_arrest = false ∧ (c.cardiac_arrest_date).isSome = true →
      c.cleanSection3 = ({ c with cardiac_arrest := true }, CleanResult.ok)) := by
  constructor
  · rintro ⟨ha, hd⟩
    unfold CapsForm.cleanSection3
    simp [ha, hd]
  · rintro ⟨ha, hd⟩
    unfold CapsForm.cleanSection3
    simp [ha, hd]

/-- The Section 3 block never produces a Section 2 error. -/
theorem cleanSection3_not_sec2 (c : CapsForm) :
    ((c.cleanSection3).2.isSec2Err) = false := by
  rcases cleanSection3_snd c with h | h <;> rw [h] <;> rfl

/-- The Section 3 block never produces the occupation error. -/
theorem cleanSection3_snd_ne_occ (c : CapsForm) :
    (c.cleanSection3).2 ≠ CleanResult.vErr VError.occupationMissing := by
  rcases cleanSection3_snd c with h | h <;> rw [h] <;> decide

/-- The Section 2 block never produces the occupation error. -/
theorem cleanSection2_snd_ne_occ (c : CapsForm) (n : Nat) :
    (c.cleanSection2 n).2 ≠ CleanResult.vErr VError.occupationMissing := by
  rcases Nat.eq_zero_or_pos n with hn | hn
  · subst hn
    cases ht : pyTruthy c.previous_pregnancy_problem
    · rw [cleanSection2_zero_not_truthy c ht]
      exact cleanSection3_snd_ne_occ c
    · rw [cleanSection2_zero_truthy c ht]
      simp
  · rw [cleanSection2_pos c n hn]
    by_cases hg : (c.gravidity_24minus == 0 && c.gravidity_24plus == 0) = true
    · simp [hg]
    · simp only [Bool.not_eq_true] at hg
      simp only [hg, Bool.false_eq_true, if_false]
      exact cleanSection3_snd_ne_occ _

/-- An employed case with a nonempty occupation whose cardiac-arrest answer
lacks its date. -/
def c4cex : CapsForm :=
  { baseCase with employed := true, occupation := some "nurse", cardiac_arrest := true }

/-- C4 counterexample: an employed case with a nonempty occupation still
fails validation (on the Section 3 cardiac-arrest date), so with
employed = true, failing is not equivalent to the occupation being empty. -/
theorem c4_fails_with_nonempty_occupation :
    c4cex.employed = true ∧ c4cex.occupation = some "nurse" ∧
    CapsForm.clean c4cex 0 = (c4cex, CleanResult.vErr VError.cardiacArrestDateMissing) :=
  ⟨rfl, rfl, rfl⟩

/-- C4 amended: for every case with employed = true whose occupation is an
actual string, `CapsForm.clean` fails with the Section 1 occupation error
exactly when that string is empty (checks of the other sections can still
fail the case when the occupation is nonempty). -/
theorem c4_amended_sec1_error_iff_occupation_empty
    (c : CapsForm) (n : Nat) (s : String)
    (hemp : c.employed = true) (hocc : c.occupation = some s) :
    ((CapsForm.clean c n).2 = CleanResult.vErr VError.occupationMissing ↔ s = "") ∧
    VError.occupationMissing.sec = 1 := by
  refine ⟨?_, rfl⟩
  unfold CapsForm.clean
  rw [hemp, hocc]
  by_cases hs : s.length = 0
  · have hse : s = "" := (string_length_eq_zero_iff s).mp hs
    simp [Nat.lt_one_iff, hs, hse]
  · have hlt : ¬(s.length < 1) := by simpa [Nat.lt_one_iff] using hs
    simp only [if_true, hlt, if_false]
    exact iff_of_false (cleanSection2_snd_ne_occ c n)
      (fun he => hs (by rw [he]; rfl))

/-- An employed case with an empty occupation string, `midwife` variant used
to witness the amended C4. -/
def c4w : CapsForm :=
  { baseCase with employed := true, occupation := some "midwife" }

/-- C4 amended witness at the concrete case `c4w`. -/
theorem c4_amended_witness :
    c4w.employed = true ∧ c4w.occupation = some "midwife" ∧
    (((CapsForm.clean c4w 0).2 = CleanResult.vErr VError.occupationMissing ↔
        "midwife" = "") ∧
      VError.occupationMissing.sec = 1) :=
  ⟨rfl, rfl, c4_amended_sec1_error_iff_occupation_empty c4w 0 "midwife" rfl rfl⟩

/-- A case with a pregnancy-problem child recorded (pregCount = 1) that
also fails the Section 1 occupation check. -/
def c5cex : CapsForm :=
  { baseCase with employed := true, occupation := some "", gravidity_24plus := 1 }

/-- C5 counterexample: with one PregnancyProblem child, validation raises
the Section 1 occupation error before reaching Section 2, so
`previous_pregnancy_problem` is not set to true, and the case fails even
though a gravidity count is positive. -/
theorem c5_ppp_not_set_on_sec1_failure :
    c5cex.gravidity_24plus = 1 ∧
    CapsForm.clean c5cex 1 = (c5cex, CleanResult.vErr VError.occupationMissing) ∧
    (CapsForm.clean c5cex 1).1.previous_pregnancy_problem = none :=
  ⟨rfl, rfl, rfl⟩

/-- C5 amended: for every case passing the Section 1 occupation check and
having at least one PregnancyProblem child, `CapsForm.clean` sets
`previous_pregnancy_problem` to true (also when it then fails), and it
fails with a Section 2 error exactly when both gravidity counts are 0. -/
theorem c5_amended_child_sets_ppp_and_sec2_iff_zero_counts
    (c : CapsForm) (n : Nat)
    (h1 : sec1Passes c = true) (hn : 0 < n) :
    (CapsForm.clean c n).1.previous_pregnancy_problem = some true ∧
    ((CapsForm.clean c n).2.isSec2Err = true ↔
      c.gravidity_24minus = 0 ∧ c.gravidity_24plus = 0) := by
  rw [clean_eq_cleanSection2_of_sec1Passes c n h1, cleanSection2_pos c n hn]
  by_cases hm : c.gravidity_24minus = 0 <;> by_cases hp : c.gravidity_24plus = 0
  · simp [hm, hp, CleanResult.isSec2Err, VError.sec]
  · simp [hm, hp, cleanSection3_ppp, cleanSection3_not_sec2]
  · simp [hm, hp, cleanSection3_ppp, cleanSection3_not_sec2]
  · simp [hm, hp, cleanSection3_ppp, cleanSection3_not_sec2]

/-- A case with two early pregnancies recorded, used to witness the amended
C5 with one child present. -/
def c5w : CapsForm := { baseCase with gravidity_24minus := 2 }

/-- C5 amended witness at the concrete case `c5w` with one child. -/
theorem c5_amended_witness :
    sec1Passes c5w = true ∧ 0 < 1 ∧
    ((CapsForm.clean c5w 1).1.previous_pregnancy_problem = some true ∧
     ((CapsForm.clean c5w 1).2.isSec2Err = true ↔
       c5w.gravidity_24minus = 0 ∧ c5w.gravidity_24plus = 0)) :=
  ⟨rfl, Nat.one_pos,
    c5_amended_child_sets_ppp_and_sec2_iff_zero_counts c5w 1 rfl Nat.one_pos⟩

/-- A case answering yes to previous pregnancy problems, with no child
records, that also fails the Section 1 occupation check. -/
def c6cex : CapsForm :=
  { baseCase with
    employed := true
    occupation := some ""
    previous_pregnancy_problem := some true }

/-- C6 counterexample: with `previous_pregnancy_problem = true` and zero
children, validation fails with the Section 1 occupation error, not the
claimed Section 2 more-information error. -/
theorem c6_fails_with_section1_not_section2 :
    c6cex.previous_pregnancy_problem = some true ∧
    CapsForm.clean c6cex 0 = (c6cex, CleanResult.vErr VError.occupationMissing) ∧
    VError.occupationMissing.sec = 1 :=
  ⟨rfl, rfl, rfl⟩

/-- C6 amended: for every case passing the Section 1 occupation check, with
`previous_pregnancy_problem = true` and zero PregnancyProblem children,
`CapsForm.clean` fails with the Section 2 error asking for more information
about previous pregnancy problems. -/
theorem c6_amended_yes_answer_needs_children (c : CapsForm)
    (h1 : sec1Passes c = true)
    (hp : c.previous_pregnancy_problem = some true) :
    CapsForm.clean c 0 = (c, CleanResult.vErr VError.pregnancyProblemDetails) ∧
    VError.pregnancyProblemDetails.sec = 2 ∧
    VError.pregnancyProblemDetails.msg =
      "Section 2: Please enter more information about previous pregnancy problems." := by
  refine ⟨?_, rfl, rfl⟩
  rw [clean_eq_cleanSection2_of_sec1Passes c 0 h1]
  exact cleanSection2_zero_truthy c (by rw [hp]; rfl)

/-- An unemployed case answering yes to previous pregnancy problems. -/
def c6w : CapsForm := { baseCase with previous_pregnancy_problem := some true }

/-- C6 amended witness at the concrete case `c6w`. -/
theorem c6_amended_witness :
    sec1Passes c6w = true ∧ c6w.previous_pregnancy_problem = some true ∧
    (CapsForm.clean c6w 0 = (c6w, CleanResult.vErr VError.pregnancyProblemDetails) ∧
     VError.pregnancyProblemDetails.sec = 2 ∧
     VError.pregnancyProblemDetails.msg =
       "Section 2: Please enter more information about previous pregnancy problems.") :=
  ⟨rfl, rfl, c6_amended_yes_answer_needs_children c6w rfl rfl⟩

/-- A case with a cardiac-arrest date but the flag unset, that also fails
the Section 1 occupation check. -/
def c7cex : CapsForm :=
  { baseCase with
    employed := true
    occupation := some ""
    cardiac_arrest_date := some 730 }

/-- C7 counterexample: with a cardiac-arrest date set and the flag false,
validation raises the Section 1 occupation error before reaching Section 3,
so the flag is not auto-corrected to true and the case does fail. -/
theorem c7_no_autocorrect_on_sec1_failure :
    c7cex.cardiac_arrest = false ∧ c7cex.cardiac_arrest_date = some 730 ∧
    CapsForm.clean c7cex 0 = (c7cex, CleanResult.vErr VError.occupationMissing) ∧
    (CapsForm.clean c7cex 0).1.cardiac_arrest = false :=
  ⟨rfl, rfl, rfl, rfl⟩

/-- C7 amended: for every case passing the Section 1 and Section 2 checks,
`CapsForm.clean` fails with the Section 3 error when `cardiac_arrest` is
true and its date unset, and with the date set and the flag false it
auto-corrects the flag to true and succeeds. -/
theorem c7_amended_cardiac_checks (c : CapsForm) (n : Nat)
    (h1 : sec1Passes c = true) (h2 : sec2Passes c n = true) :
    (c.cardiac_arrest = true ∧ c.cardiac_arrest_date = none →
      (CapsForm.clean c n).2 = CleanResult.vErr VError.cardiacArrestDateMissing ∧
      VError.cardiacArrestDateMissing.sec = 3) ∧
    (c.cardiac_arrest = false ∧ (c.cardiac_arrest_date).isSome = true →
      (CapsForm.clean c n).2 = CleanResult.ok ∧
      (CapsForm.clean c n).1.cardiac_arrest = true) := by
  have hred : CapsForm.clean c n = c.cleanSection2 n :=
    clean_eq_cleanSection2_of_sec1Passes c n h1
  rcases Nat.eq_zero_or_pos n with hn | hn
  · subst hn
    have ht : pyTruthy c.previous_pregnancy_problem = false := by
      unfold sec2Passes at h2
      simpa using h2
    rw [hred, cleanSection2_zero_not_truthy c ht]
    constructor
    · intro h
      rw [(cleanSection3_spec c).1 h]
      exact ⟨rfl, rfl⟩
    · intro h
      rw [(cleanSection3_spec c).2 h]
      exact ⟨rfl, rfl⟩
  · have hg : (c.gravidity_24minus == 0 && c.gravidity_24plus == 0) = false := by
      unfold sec2Passes at h2
      rw [if_pos hn] at h2
      cases hb : (c.gravidity_24minus == 0 && c.gravidity_24plus == 0)
      · rfl
      · rw [hb] at h2
        exact absurd h2 (by decide)
    rw [hred, cleanSection2_pos c n hn]
    simp only [hg, Bool.false_eq_true, if_false]
    constructor
    · intro h
      rw [(cleanSection3_spec { c with previous_pregnancy_problem := some true }).1 h]
      exact ⟨rfl, rfl⟩
    · intro h
      rw [(cleanSection3_spec { c with previous_pregnancy_problem := some true }).2 h]
      exact ⟨rfl, rfl⟩

/-- An unemployed case with a cardiac-arrest date recorded but the flag left
unset. -/
def c7w : CapsForm := { baseCase with cardiac_arrest_date := some 730 }

/-- C7 amended witness at the concrete case `c7w`. -/
theorem c7_amended_witness :
    sec1Passes c7w = true ∧ sec2Passes c7w 0 = true ∧
    ((c7w.cardiac_arrest = true ∧ c7w.cardiac_arrest_date = none →
      (CapsForm.clean c7w 0).2 = CleanResult.vErr VError.cardiacArrestDateMissing ∧
      VError.cardiacArrestDateMissing.sec = 3) ∧
     (c7w.cardiac_arrest = false ∧ (c7w.cardiac_arrest_date).isSome = true →
      (CapsForm.clean c7w 0).2 = CleanResult.ok ∧
      (CapsForm.clean c7w 0).1.cardiac_arrest = true)) :=
  ⟨rfl, rfl, c7_amended_cardiac_checks c7w 0 rfl rfl⟩

/-- A case with one PregnancyProblem child and both gravidity counts zero
that also fails the Section 1 occupation check. -/
def c10cex : CapsForm := { baseCase with employed := true, occupation := some "" }

/-- C10 counterexample: with one child and both counts zero, validation can
raise the Section 1 occupation error instead of the Section 2 error, and in
that case `previous_pregnancy_problem` is not mutated at all. -/
theorem c10_no_mutation_on_sec1_failure :
    c10cex.gravidity_24minus = 0 ∧ c10cex.gravidity_24plus = 0 ∧
    (CapsForm.clean c10cex 1).2 = CleanResult.vErr VError.occupationMissing ∧
    (CapsForm.clean c10cex 1).1.previous_pregnancy_problem = none :=
  ⟨rfl, rfl, rfl, rfl⟩

/-- C10 amended: for every case passing the Section 1 occupation check, with
at least one PregnancyProblem child and both gravidity counts zero,
`CapsForm.clean` returns the record with `previous_pregnancy_problem`
mutated to true together with the raised Section 2 error — the in-memory
case is changed even though validation fails. -/
theorem c10_amended_mutation_before_sec2_raise (c : CapsForm) (n : Nat)
    (h1 : sec1Passes c = true) (hn : 0 < n)
    (hm : c.gravidity_24minus = 0) (hp : c.gravidity_24plus = 0) :
    CapsForm.clean c n =
      ({ c with previous_pregnancy_problem := some true },
        CleanResult.vErr VError.noPreviousPregnancies) ∧
    VError.noPreviousPregnancies.sec = 2 := by
  refine ⟨?_, rfl⟩
  rw [clean_eq_cleanSection2_of_sec1Passes c n h1, cleanSection2_pos c n hn]
  simp [hm, hp]

/-- C10 amended witness at the base case with one child. -/
theorem c10_amended_witness :
    sec1Passes baseCase = true ∧ 0 < 1 ∧
    baseCase.gravidity_24minus = 0 ∧ baseCase.gravidity_24plus = 0 ∧
    (CapsForm.clean baseCase 1 =
      ({ baseCase with previous_pregnancy_problem := some true },
        CleanResult.vErr VError.noPreviousPregnancies) ∧
     VError.noPreviousPregnancies.sec = 2) :=
  ⟨rfl, Nat.one_pos, rfl, rfl,
    c10_amended_mutation_before_sec2_raise baseCase 1 rfl Nat.one_pos rfl rfl⟩
